import Mathlib

/-
  Verification of the odfl package (olddominion): a client adapter that
  schedules LTL freight pickups through the Old Dominion XML/SOAP endpoint.
  The package state (test mode, timeout), the request data model, the
  encoding/xml marshalling of the request struct, and the control flow of
  RequestPickup are embedded below, translated from src/olddominion.go.
  Network and response-tokenizer outcomes, which the code only consumes,
  are passed in as explicit oracle values.
-/

namespace Odfl

/-- odURL is the URL used to make API calls (olddominion.go line 30). -/
def odURL : String := "http://www.odfl.com/wsPickup_v1b/services/ODPickupSOAP"

/-- Nanosecond count of Go time.Second; Go durations are int64 nanosecond
counts. -/
def timeSecond : Int := 1000000000

/-- Two of-complement wraparound to a signed 64-bit value, the semantics of
Go int64 arithmetic used by time.Duration multiplication. -/
def int64Wrap (x : Int) : Int := (x + 2 ^ 63) % 2 ^ 64 - 2 ^ 63

/-- Base XML namespace constant soapenv (olddominion.go line 43). -/
def soapenv : String := "http://schemas.xmlsoap.org/soap/envelope/"

/-- Base XML namespace constant pic (olddominion.go line 44). -/
def pic : String := "http://pickup.ws.odfl.com"

/-- Process-wide package state: the testMode variable (line 39, initially
true) and the timeout variable (line 35, initially 10 seconds), both read
by every subsequent call. -/
structure GlobalState where
  testMode : Bool
  timeout : Int
deriving DecidableEq

/-- Initial package state: testMode = true, timeout = 10 * time.Second. -/
def initState : GlobalState := { testMode := true, timeout := 10 * timeSecond }

/-- SetProductionMode (lines 125-131): when the argument is true it clears
testMode; when the argument is false it does nothing at all. -/
def SetProductionMode (yes : Bool) (s : GlobalState) : GlobalState :=
  if yes then { s with testMode := false } else s

/-- SetTimeout (lines 135-138): timeout = time.Duration(seconds * time.Second),
an int64 multiplication of the argument by 10^9 with 64-bit wraparound. -/
def SetTimeout (seconds : Int) (s : GlobalState) : GlobalState :=
  { s with timeout := int64Wrap (seconds * timeSecond) }

/-- Folds a list of SetProductionMode calls over a state, modelling an
arbitrary sequence of Mode Controller operations. -/
def runModeCalls (calls : List Bool) (s : GlobalState) : GlobalState :=
  calls.foldl (fun acc y => SetProductionMode y acc) s

/-- Shipper (lines 59-91): data on the shipper.  Field defaults are the Go
zero values.  Note the struct tag of Country (line 68) is keyed "xmml", not
"xml": encoding/xml therefore sees no tag and uses the Go field name. -/
structure Shipper where
  ODFL4MeUser : String := ""
  ODFL4MePassword : String := ""
  CompanyName : String := ""
  AddressLine1 : String := ""
  City : String := ""
  StateProvince : String := ""
  PostalCode : String := ""
  Country : String := ""
  ContactFName : String := ""
  ContactLName : String := ""
  PhoneAreaCode : String := ""
  PhoneNumber : String := ""
  TestFlag : Bool := false
  PickupDate : String := ""
  PickupTime : String := ""
  PickupTimeAMPM : String := ""
  WhoEntered : String := ""
  WhoPhoneNumber : String := ""
  AccountNumber : String := ""
  Attention : String := ""
  AddressLine2 : String := ""
  PhoneExt : String := ""
  FaxAreaCode : String := ""
  FaxNumber : String := ""
  Email : String := ""
  Comments : String := ""
  DockCloseTime : String := ""
  DockCloseAMPM : String := ""

/-- Consignee (lines 94-122): destination and shipment contents.  Go uint
is modelled as Nat (no arithmetic is performed on these counts); Go float64
is modelled as Float, used only as an opaque leaf value. -/
structure Consignee where
  CustomerShipmentID : String := ""
  City : String := ""
  StateProvince : String := ""
  PostalCode : String := ""
  Country : String := ""
  PhoneAreaCode : String := ""
  PhoneNumber : String := ""
  HandlingUnits : Nat := 0
  Pieces : Nat := 0
  UnitType : String := ""
  Weight : Float := 0.0
  PaymentMethod : String := ""
  CompanyName : String := ""
  AddressLine1 : String := ""
  AddressLine2 : String := ""
  ContactFName : String := ""
  ContactLName : String := ""
  PhoneExt : String := ""
  FaxAreaCode : String := ""
  FaxNumber : String := ""
  Email : String := ""
  Hazmat : String := ""
  Freezable : String := ""
  Description : String := ""

/-- PickupRequest (lines 48-56): the main body of the xml request.  The
XMLName field carries no data (it fixes the root element name, used in
xmlMarshal below); the two attribute fields and the two child structs are
data fields. -/
structure PickupRequest where
  SoapenvAttr : String := ""
  PicAttr : String := ""
  Shipper : Shipper := {}
  Consignee : Consignee := {}

/-- Structural XML document tree: the result of serializing, or of
structurally re-parsing, a payload. -/
inductive XML where
  | elem (name : String) (attrs : List (String × String)) (children : List XML)
  | text (s : String)

/-- Element name of a node, none for a text node. -/
def XML.nameOf : XML → Option String
  | .elem n _ _ => some n
  | .text _ => none

/-- Attribute list of a node. -/
def XML.attrsOf : XML → List (String × String)
  | .elem _ a _ => a
  | .text _ => []

/-- Child list of a node. -/
def XML.childrenOf : XML → List XML
  | .elem _ _ c => c
  | .text _ => []

/-- First child element with the given name. -/
def XML.child (x : XML) (tag : String) : Option XML :=
  x.childrenOf.find? (fun c => c.nameOf == some tag)

/-- Walks a chain of child element names from a node. -/
def XML.childPath : XML → List String → Option XML
  | x, [] => some x
  | x, t :: ts =>
    match XML.child x t with
    | some c => XML.childPath c ts
    | none => none

/-- Text content of an element with a single text child. -/
def XML.textOf : XML → Option String
  | .elem _ _ [.text s] => some s
  | _ => none

/-- Element holding a string field, as encoding/xml emits it (no omitempty
flag appears in the source, so empty strings still produce an element). -/
def strElem (tag v : String) : XML := .elem tag [] [.text v]

/-- Element holding a Go bool field: encoding/xml renders true/false. -/
def boolElem (tag : String) (b : Bool) : XML :=
  .elem tag [] [.text (if b then "true" else "false")]

/-- Element holding a Go uint field: decimal rendering. -/
def natElem (tag : String) (n : Nat) : XML := .elem tag [] [.text (toString n)]

/-- Element holding a Go float64 field.  encoding/xml uses the shortest
strconv g-format; no property below depends on the digit string of this
leaf, so the Lean Float rendering stands in for it. -/
def floatElem (tag : String) (f : Float) : XML := .elem tag [] [.text (toString f)]

/-- Marshalling of the Shipper struct (lines 59-91), fields in declaration
order with the tag names from the source.  The Country field carries the
misspelled tag key "xmml" (line 68), which encoding/xml does not recognise;
it falls back to the Go field name, emitting an element named Country. -/
def marshalShipper (s : Shipper) : XML :=
  .elem "shipper" []
    [ strElem "odfl4meUser" s.ODFL4MeUser,
      strElem "odfl4mePassword" s.ODFL4MePassword,
      strElem "companyName" s.CompanyName,
      strElem "addressLine1" s.AddressLine1,
      strElem "city" s.City,
      strElem "stateProvince" s.StateProvince,
      strElem "postalCode" s.PostalCode,
      strElem "Country" s.Country,
      strElem "contactFName" s.ContactFName,
      strElem "contactLName" s.ContactLName,
      strElem "phoneAreaCode" s.PhoneAreaCode,
      strElem "phoneNumber" s.PhoneNumber,
      boolElem "testFlag" s.TestFlag,
      strElem "pickupDate" s.PickupDate,
      strElem "pickupTime" s.PickupTime,
      strElem "pickupTimeAMPM" s.PickupTimeAMPM,
      strElem "whoEntered" s.WhoEntered,
      strElem "whoPhoneNumber" s.WhoPhoneNumber,
      strElem "accountNumber" s.AccountNumber,
      strElem "attention" s.Attention,
      strElem "addressLine2" s.AddressLine2,
      strElem "phoneExt" s.PhoneExt,
      strElem "faxAreaCode" s.FaxAreaCode,
      strElem "faxNumber" s.FaxNumber,
      strElem "email" s.Email,
      strElem "comments" s.Comments,
      strElem "dockCloseTime" s.DockCloseTime,
      strElem "dockCloseAMPM" s.DockCloseAMPM ]

/-- Marshalling of the Consignee struct (lines 94-122), fields in
declaration order with the tag names from the source. -/
def marshalConsignee (c : Consignee) : XML :=
  .elem "Consignee" []
    [ strElem "customerShipmentId" c.CustomerShipmentID,
      strElem "city" c.City,
      strElem "stateProvince" c.StateProvince,
      strElem "postalCode" c.PostalCode,
      strElem "country" c.Country,
      strElem "phoneAreaCode" c.PhoneAreaCode,
      strElem "phoneNumber" c.PhoneNumber,
      natElem "handlingUnits" c.HandlingUnits,
      natElem "pieces" c.Pieces,
      strElem "unitType" c.UnitType,
      floatElem "weight" c.Weight,
      strElem "paymentMethod" c.PaymentMethod,
      strElem "companyName" c.CompanyName,
      strElem "addressLine1" c.AddressLine1,
      strElem "addressLine2" c.AddressLine2,
      strElem "contactFName" c.ContactFName,
      strElem "contactLName" c.ContactLName,
      strElem "phoneExt" c.PhoneExt,
      strElem "faxAreaCode" c.FaxAreaCode,
      strElem "faxNumber" c.FaxNumber,
      strElem "email" c.Email,
      strElem "hazmat" c.Hazmat,
      strElem "freezable" c.Freezable,
      strElem "description" c.Description ]

/-- The xml.Marshal of a PickupRequest value (line 143) under the struct
tags of lines 49-55: root soapenv:Envelope carrying the two attr fields
(encoding/xml writes tag names containing a colon verbatim, and writes an
attr field even when its string value is empty, absent an omitempty flag);
the Shipper and Consignee field paths share the parent chain
soapenv:Header then soapenv:Body then pic:pickupRequest, which encoding/xml
merges into one nested chain, with the Consignee wrapped in one more
consignees element. -/
def xmlMarshal (p : PickupRequest) : XML :=
  .elem "soapenv:Envelope"
    [("xmlns:soapenv", p.SoapenvAttr), ("xmlns:pic", p.PicAttr)]
    [ .elem "soapenv:Header" []
        [ .elem "soapenv:Body" []
            [ .elem "pic:pickupRequest" []
                [ marshalShipper p.Shipper,
                  .elem "consignees" [] [marshalConsignee p.Consignee] ] ] ] ]

/-- Outcome of the tokenizer scan that encoding/xml Unmarshal performs to
find the first start element of the response body: either the scanner
fails first (empty or truncated or malformed input) with its message, or
a start element is found.  Which case occurs is all the code can observe,
so the scan verdict is taken as an oracle alongside the body bytes. -/
inductive ScanOutcome where
  | scanErr (msg : String)
  | started

/-- Go reflection kinds relevant to the destination-type dispatch of
encoding/xml Decoder.unmarshal. -/
inductive GoKind where
  | interfaceKind
  | sliceKind
  | boolKind
  | numericKind
  | stringKind
  | structKind
  | mapKind

/-- Destination kinds the switch in encoding/xml Decoder.unmarshal can
populate (read.go): interfaces, slices, booleans, numbers, strings and
structs.  Every other kind, maps included, falls to the default branch,
which returns an unknown-type error. -/
def unmarshalHandledKind : GoKind → Bool
  | .interfaceKind => true
  | .sliceKind => true
  | .boolKind => true
  | .numericKind => true
  | .stringKind => true
  | .structKind => true
  | .mapKind => false

/-- Error text of the default branch of the unmarshal dispatch for the
destination type of line 141, map[string]interface\x7b\x7d. -/
def unknownTypeMapMsg : String := "unknown type map[string]interface \x7b\x7d"

/-- Line 175: xml.Unmarshal(body, responseData) where responseData is a Go
map.  If the scan for a start element fails, that error is returned; if a
start element is found, the destination kind mapKind reaches the dispatch,
is not a handled kind, and the unknown-type error is returned.  The ok
branch is dead code for a map destination. -/
def xmlUnmarshalToMap (scan : ScanOutcome) : Except String (List (String × String)) :=
  match scan with
  | .scanErr m => .error m
  | .started =>
    if unmarshalHandledKind .mapKind then
      .ok []
    else
      .error unknownTypeMapMsg

/-- Message format of errors.Wrap from github.com/pkg/errors: the context
message, a colon and a space, then the wrapped error. -/
def errorsWrap (e msg : String) : String := msg ++ ": " ++ e

/-- Outcome of reading the HTTP response body (lines 168-173). -/
inductive ReadOutcome where
  | readErr (msg : String)
  | body (bytes : String) (scan : ScanOutcome)

/-- Outcome of the HTTP POST (lines 161-165): a connection, timeout or
transport-level failure with its message, or a response to read. -/
inductive PostOutcome where
  | postErr (msg : String)
  | response (rd : ReadOutcome)

/-- Record of the HTTP call RequestPickup issues: the fixed URL, the
content type, the client timeout taken from the package state (lines
158-161), and the payload bytes handed to the POST. -/
structure HttpCall where
  url : String
  contentType : String
  timeout : Int
  payload : XML

/-- Result of a RequestPickup call: the request object after the mutations
the method performs on it, the HTTP call issued, and the named return
values responseData and err. -/
structure PickupResult where
  pAfter : PickupRequest
  call : HttpCall
  responseData : Option (List (String × String))
  err : Option String

/-- RequestPickup (lines 141-186), with the network outcome passed as an
oracle.  The order of operations follows the source exactly: the request
is marshalled first (line 143); only then are the namespace attributes
(lines 150-151) and the test flag (line 154) written onto the object, so
the payload sent carries the values the object held at entry.  Marshalling
of this struct type cannot fail (all fields are strings, bools and
numbers), so the early return of lines 144-147 never fires. -/
def RequestPickup (st : GlobalState) (p : PickupRequest) (net : PostOutcome) : PickupResult :=
  let xmlBytes := xmlMarshal p
  let p2 : PickupRequest :=
    { p with
      SoapenvAttr := soapenv,
      PicAttr := pic,
      Shipper := { p.Shipper with TestFlag := st.testMode } }
  let call : HttpCall :=
    { url := odURL, contentType := "text/xml", timeout := st.timeout, payload := xmlBytes }
  match net with
  | .postErr m =>
    { pAfter := p2, call := call, responseData := none,
      err := some (errorsWrap m "odfl.RequestPickup - could not make post request") }
  | .response (.readErr m) =>
    { pAfter := p2, call := call, responseData := none,
      err := some (errorsWrap m "odfl.RequestPickup - could not read response 1") }
  | .response (.body _ scan) =>
    match xmlUnmarshalToMap scan with
    | .error m =>
      { pAfter := p2, call := call, responseData := none,
        err := some (errorsWrap m "odfl.RequestPickup - could not read response 2") }
    | .ok kvs =>
      { pAfter := p2, call := call, responseData := some kvs, err := none }

/-- A fresh PickupRequest as a caller builds it: all fields at their Go
zero values, in particular TestFlag = false and empty attribute strings. -/
def demoRequest : PickupRequest := {}

/-- A shipper whose Country field the caller set to USA. -/
def countryShipper : Shipper := { Country := "USA" }

/-- A well-formed reply body carrying one key-value pair. -/
def wellFormedReply : String :=
  "<pickupResponse><confirmationNumber>TEST123</confirmationNumber></pickupResponse>"

/-- Running any sequence of SetProductionMode calls never changes the
timeout component of the state. -/
theorem runModeCalls_timeout (calls : List Bool) (s : GlobalState) :
    (runModeCalls calls s).timeout = s.timeout := by
  induction calls generalizing s with
  | nil => rfl
  | cons y ys ih =>
    simp only [runModeCalls, List.foldl] at ih ⊢
    rw [ih]
    cases y <;> rfl

/-- Once testMode is cleared, no sequence of SetProductionMode calls sets
it again. -/
theorem runModeCalls_false_stable (calls : List Bool) (s : GlobalState)
    (h : s.testMode = false) : (runModeCalls calls s).testMode = false := by
  induction calls generalizing s with
  | nil => exact h
  | cons y ys ih =>
    simp only [runModeCalls, List.foldl] at ih ⊢
    apply ih
    cases y
    · exact h
    · rfl

/-- In every branch of RequestPickup, the HTTP client timeout is the
timeout of the package state at the time of the call. -/
theorem RequestPickup_call_timeout (st : GlobalState) (p : PickupRequest)
    (net : PostOutcome) : (RequestPickup st p net).call.timeout = st.timeout := by
  cases net with
  | postErr m => rfl
  | response rd =>
    cases rd with
    | readErr m => rfl
    | body bytes scan => cases scan <;> rfl

/-- C1: the claim states that the testFlag element of the serialized
payload always equals the Mode Controller state (true while in test mode,
false after promotion), whatever TestFlag value the caller left on the
shipper.  The code marshals the request (line 143) before writing the flag
onto the object (line 154), so the payload carries the caller value: in
the initial test-mode state, a fresh request whose shipper has
TestFlag = false produces a payload whose testFlag element reads false
where the claim requires true. -/
theorem C1_payload_testFlag_stale :
    initState.testMode = true ∧
    ((((RequestPickup initState demoRequest (.postErr "down")).call.payload.childPath
        ["soapenv:Header", "soapenv:Body", "pic:pickupRequest", "shipper"]).bind
        (fun e => e.child "testFlag")).bind XML.textOf) = some "false" :=
  ⟨rfl, rfl⟩

/-- C2: for a fresh request the payload root is soapenv:Envelope and the
pickup-request element closes the four-element chain envelope, header,
body, pickup-request; but because the namespace attributes are written
onto the object (lines 150-151) only after marshalling (line 143), the
root carries both attribute names with empty values instead of the two
namespace constants, which are nonempty. -/
theorem C2_envelope_structure_empty_namespaces :
    (RequestPickup initState demoRequest (.postErr "down")).call.payload.nameOf =
      some "soapenv:Envelope" ∧
    (RequestPickup initState demoRequest (.postErr "down")).call.payload.attrsOf =
      [("xmlns:soapenv", ""), ("xmlns:pic", "")] ∧
    (((RequestPickup initState demoRequest (.postErr "down")).call.payload.childPath
        ["soapenv:Header", "soapenv:Body", "pic:pickupRequest"]).bind XML.nameOf) =
      some "pic:pickupRequest" ∧
    soapenv ≠ "" ∧ pic ≠ "" :=
  ⟨rfl, rfl, rfl, by decide, by decide⟩

/-- C3: RequestPickup can never return a nil error together with a
populated result mapping: whatever the state, request and network outcome,
responseData is none and err is set, because the decode step unmarshals
into a Go map, a destination kind the encoding/xml dispatch cannot
populate, so every call that reaches the decode step fails there. -/
theorem C3_decode_always_fails (st : GlobalState) (p : PickupRequest)
    (net : PostOutcome) :
    (RequestPickup st p net).responseData = none ∧
    (RequestPickup st p net).err.isSome = true := by
  cases net with
  | postErr m => exact ⟨rfl, rfl⟩
  | response rd =>
    cases rd with
    | readErr m => exact ⟨rfl, rfl⟩
    | body bytes scan => cases scan <;> exact ⟨rfl, rfl⟩

/-- C4: the claim states every shipper field is emitted under the wire tag
enumerated in the data model, the country field as the element tag
country.  The struct tag of the Country field is keyed with the typo
xmml (line 68), so encoding/xml ignores it and emits the Go field name:
the marshalled shipper has no child named country and instead a child
named Country holding the value. -/
theorem C4_country_tag_miscased :
    (marshalShipper countryShipper).child "country" = none ∧
    ((marshalShipper countryShipper).child "Country").bind XML.textOf = some "USA" :=
  ⟨rfl, rfl⟩

/-- C5 counterexample: the claim states that after SetTimeout(v) the HTTP
timeout used by Transport equals v; at v = 2 the client timeout of the
next RequestPickup call is 2000000000, not 2, because the argument is
multiplied by time.Second. -/
theorem C5_counterexample :
    (RequestPickup (SetTimeout 2 initState) demoRequest (.postErr "x")).call.timeout ≠ 2 := by
  decide

/-- C5 amended: after SetTimeout(v), the HTTP client timeout used by every
subsequent RequestPickup call equals v * time.Second (v seconds expressed
in nanoseconds, under 64-bit wraparound), surviving any interleaved
SetProductionMode calls: the argument is a bare second count, not a
duration. -/
theorem C5_timeout_seconds_scaled (v : Int) (modes : List Bool) (s : GlobalState)
    (p : PickupRequest) (net : PostOutcome) :
    (RequestPickup (runModeCalls modes (SetTimeout v s)) p net).call.timeout =
      int64Wrap (v * timeSecond) := by
  rw [RequestPickup_call_timeout, runModeCalls_timeout]
  rfl

/-- C6: the Mode Controller switch is promote-only: SetProductionMode false
is the identity on the state, and after any sequence of calls containing
SetProductionMode true the state is production mode (testMode false)
forever. -/
theorem C6_production_mode_promote_only (calls : List Bool) (s : GlobalState) :
    SetProductionMode false s = s ∧
    (true ∈ calls → (runModeCalls calls s).testMode = false) := by
  constructor
  · rfl
  · intro hmem
    induction calls generalizing s with
    | nil => cases hmem
    | cons y ys ih =>
      simp only [runModeCalls, List.foldl]
      rcases List.mem_cons.mp hmem with hy | hys
      · subst hy
        exact runModeCalls_false_stable ys _ rfl
      · exact ih _ hys

/-- C6 witness: a concrete run of the promote-only property. -/
theorem C6_production_mode_promote_only_witness :
    SetProductionMode false initState = initState ∧
    (runModeCalls [true, false] initState).testMode = false :=
  ⟨(C6_production_mode_promote_only [true, false] initState).1,
   (C6_production_mode_promote_only [true, false] initState).2 (by decide)⟩

/-- C7: the claim states that a well-formed reply of key-value pairs
decodes to a mapping of exactly those pairs with no error.  The decode
destination is a Go map, which encoding/xml cannot populate, so even the
well-formed reply body produces a decode error and an empty result: the
call returns no mapping and a wrapped unknown-type error. -/
theorem C7_wellformed_body_decode_error :
    (RequestPickup initState demoRequest
        (.response (.body wellFormedReply .started))).responseData = none ∧
    (RequestPickup initState demoRequest
        (.response (.body wellFormedReply .started))).err =
      some (errorsWrap unknownTypeMapMsg "odfl.RequestPickup - could not read response 2") :=
  ⟨rfl, rfl⟩

/-- C8: for every reply body and every tokenizer verdict on it, malformed
bodies included, the decode step fails and RequestPickup returns no
partial mapping, only an error wrapped with the decode context message. -/
theorem C8_malformed_body_decode_error (st : GlobalState) (p : PickupRequest)
    (bytes : String) (scan : ScanOutcome) :
    (RequestPickup st p (.response (.body bytes scan))).responseData = none ∧
    ∃ m, (RequestPickup st p (.response (.body bytes scan))).err =
      some ("odfl.RequestPickup - could not read response 2: " ++ m) := by
  cases scan with
  | scanErr m => exact ⟨rfl, m, rfl⟩
  | started => exact ⟨rfl, unknownTypeMapMsg, rfl⟩

/-- C9: when the POST itself fails (connection failure, elapsed timeout or
connection-level fault), RequestPickup returns no decoded mapping and an
error carrying the failure message wrapped with the operation name. -/
theorem C9_transport_error_wrapped (st : GlobalState) (p : PickupRequest)
    (m : String) :
    (RequestPickup st p (.postErr m)).responseData = none ∧
    (RequestPickup st p (.postErr m)).err =
      some ("odfl.RequestPickup - could not make post request: " ++ m) :=
  ⟨rfl, rfl⟩

/-- C10: in every branch of RequestPickup, the request object afterwards
has SoapenvAttr and PicAttr set to the two package namespace constants and
Shipper.TestFlag set to the current Mode Controller test-mode value, and
no other field changes: the shipper equals the original shipper with only
TestFlag replaced, and the consignee is untouched. -/
theorem C10_frame_exactly_three_fields (st : GlobalState) (p : PickupRequest)
    (net : PostOutcome) :
    (RequestPickup st p net).pAfter.SoapenvAttr = soapenv ∧
    (RequestPickup st p net).pAfter.PicAttr = pic ∧
    (RequestPickup st p net).pAfter.Shipper =
      { p.Shipper with TestFlag := st.testMode } ∧
    (RequestPickup st p net).pAfter.Consignee = p.Consignee := by
  cases net with
  | postErr m => exact ⟨rfl, rfl, rfl, rfl⟩
  | response rd =>
    cases rd with
    | readErr m => exact ⟨rfl, rfl, rfl, rfl⟩
    | body bytes scan => cases scan <;> exact ⟨rfl, rfl, rfl, rfl⟩

end Odfl
